import Mathlib

/-
Verification development for amouse (a USB to serial mouse adaptor).

Shallow embedding of the program logic of src/linux/src/amouse.c,
src/linux/src/include/serial.c and src/linux/src/include/utils.c.

Conventions of the embedding:
  - C int values are Lean Int; C uint8_t values are Lean Nat kept below 256.
  - The C conversion from int to uint8_t is modular, written u8 below
    (reduction modulo 2^8 of the two of-complement value).
  - C bitwise AND / OR are modelled by executable bounded-width bit
    recursions (andBits / orBits); every bitwise expression in the source
    acts on values whose relevant width is 8 bits (packet bytes) or the
    width of a control-line register, so a fixed fuel of 8 or 32 bits is
    exact.  Operands are truncated with u8 before an 8-bit OR; this is
    faithful because the C code immediately stores the OR result into a
    uint8_t, and truncation commutes with bitwise OR bit by bit.
  - C shifts: the source only ever left-shifts the button flags (values 0
    or 1) and right-shifts nonnegative masked values, so shifts are
    modelled as multiplication and division by powers of two, which is
    exactly the C semantics on those operands.
  - External effects (evdev events, clock reads, ioctl, writes to the
    serial fd) are passed in as explicit inputs or returned as explicit
    outputs (lists of transmitted bytes, logged messages, exit codes).
-/

set_option maxRecDepth 40000

namespace Amouse

/-- Bitwise OR restricted to the low k bits, by structural recursion on the
width.  For operands below 2^k this is exactly bitwise OR. -/
def orBits : Nat → Nat → Nat → Nat
  | 0, _, _ => 0
  | k+1, n, m => (if n % 2 = 1 ∨ m % 2 = 1 then 1 else 0) + 2 * orBits k (n / 2) (m / 2)

/-- Bitwise AND restricted to the low k bits, by structural recursion on the
width. -/
def andBits : Nat → Nat → Nat → Nat
  | 0, _, _ => 0
  | k+1, n, m => (if n % 2 = 1 ∧ m % 2 = 1 then 1 else 0) + 2 * andBits k (n / 2) (m / 2)

/-- Bitwise OR on bytes (uint8_t). -/
def or8 (a b : Nat) : Nat := orBits 8 a b

/-- Bitwise AND on bytes (uint8_t). -/
def and8 (a b : Nat) : Nat := andBits 8 a b

/-- Bitwise AND on nonnegative 32-bit int values (control-line registers). -/
def and32 (a b : Nat) : Nat := andBits 32 a b

/-- C conversion from int to uint8_t: reduction modulo 256 of the two
of-complement value (Int.emod is nonnegative for a positive modulus). -/
def u8 (i : Int) : Nat := (i % 256).toNat

/-- From utils.c: int clamp(int value, int min, int max). -/
def clamp (value mn mx : Int) : Int :=
  if value > mx then mx
  else if value < mn then mn
  else value

/-- Modelled from the spec: NS_FULL_SECOND comes from include/serial.h which
is not under src (only serial.c, its user, is).  The spec describes the
timestamp arithmetic as seconds plus nanoseconds with normalization by
borrowing one full second, so the constant is 10^9 nanoseconds. -/
def NS_FULL_SECOND : Int := 1000000000

/-- Modelled from the spec: the delay constants SERIALDELAY_3B and
SERIALDELAY_4B come from include/serial.h which is not under src.  The
comment block in serial.c (get_target_time) fixes the cadence at about
0.0075 seconds per byte, giving 22500000 ns for a 3-byte window. -/
def SERIALDELAY_3B : Int := 22500000

/-- Modelled from the spec: 4-byte window delay, 0.0075 s per byte times 4
bytes = 30000000 ns (see SERIALDELAY_3B). -/
def SERIALDELAY_4B : Int := 30000000

/-- Modelled from the spec: MOUSE_LMB_BIT comes from include/serial.h which
is not under src.  The spec wire table fixes byte 0 as 0x40 sync with the
top two bits of X in bits 1-0 and of Y in bits 3-2, and names the format as
the Microsoft IntelliMouse serial protocol, which places the left button at
bit 5 of byte 0. -/
def MOUSE_LMB_BIT : Nat := 5

/-- Modelled from the spec: right button bit position in byte 0 of the
Microsoft IntelliMouse serial packet (see MOUSE_LMB_BIT). -/
def MOUSE_RMB_BIT : Nat := 4

/-- Modelled from the spec: middle button bit position in byte 3 of the
IntelliMouse packet; the spec keeps bits 3-0 of byte 3 for the wheel
nibble, and the IntelliMouse format places the middle button above it at
bit 4. -/
def MOUSE_MMB_BIT : Nat := 4

/-- From serial.c: struct timespec fields used by timespec_diff. -/
structure timespec where
  tv_sec : Int
  tv_nsec : Int

/-- From serial.c lines 130-137: void timespec_diff(ts1, ts2, result).
Subtracts ts2 from ts1 field by field and borrows one second when the raw
nanosecond remainder is negative. -/
def timespec_diff (ts1 ts2 : timespec) : timespec :=
  let sec := ts1.tv_sec - ts2.tv_sec
  let nsec := ts1.tv_nsec - ts2.tv_nsec
  if nsec < 0 then { tv_sec := sec - 1, tv_nsec := nsec + NS_FULL_SECOND }
  else { tv_sec := sec, tv_nsec := nsec }

/-- From serial.c lines 43-50: int get_pin(int fd, int flag).  The ioctl
TIOCMGET query is an external effect, modelled as an optional register
value (none when the query fails).  On success the C code returns
(serial_state AND flag) ? 1 : 0, that is 1 exactly when the AND is
nonzero. -/
def get_pin (query : Option Nat) (flag : Nat) : Int :=
  match query with
  | none => -1
  | some serial_state => if and32 serial_state flag ≠ 0 then 1 else 0

/-- From serial.c lines 34-41: serial_write writes buffer[0..size-1] one
byte at a time, in order.  The transmitted byte sequence is the size-long
prefix of the buffer. -/
def serial_write (buffer : List Nat) (size : Nat) : List Nat :=
  buffer.take size

/-- From serial.c line 29: uint8_t pkt_intellimouse_intro[] is initialized
from the C string literal with the two bytes 0x4D 0x5A; as a C array built
from a string literal it also contains the terminating NUL byte, so the
array has THREE elements and sizeof evaluates to 3. -/
def pkt_intellimouse_intro : List Nat := [0x4D, 0x5A, 0x00]

/-- From serial.c lines 108-128: mouse_ident sends
serial_write(fd, pkt_intellimouse_intro, sizeof(pkt_intellimouse_intro))
when wheel support is enabled (sizeof = 3, NUL included) and
serial_write(fd, pkt_intellimouse_intro, 1) otherwise.  The control-line
waiting in deferred mode does not affect which bytes are sent.  Returns
the transmitted byte sequence. -/
def mouse_ident_bytes (wheel_enabled : Bool) : List Nat :=
  if wheel_enabled then serial_write pkt_intellimouse_intro 3
  else serial_write pkt_intellimouse_intro 1

/-- From amouse.c lines 65-71: struct mouse_state.  state[4] is the packet
buffer of uint8_t bytes; the other fields are C int. -/
structure mouse_state where
  pc_state : Int
  state0 : Nat
  state1 : Nat
  state2 : Nat
  state3 : Nat
  x : Int
  y : Int
  wheel : Int
  update : Int
  lmb : Int
  rmb : Int
  mmb : Int
  force_update : Int

/-- From amouse.c lines 159-162: void push_update(mouse, full_packet).
Requests a 4-byte update (update = 3) when full_packet is truthy or a
4-byte update is already pending, else a 3-byte update (update = 2). -/
def push_update (mouse : mouse_state) (full_packet : Int) : mouse_state :=
  if full_packet ≠ 0 ∨ mouse.update = 3 then { mouse with update := 3 }
  else { mouse with update := 2 }

/-- Input events delivered by libevdev, by (type, code) with the int value.
key_other stands for EV_KEY events with a code other than the three mouse
buttons; rel_other for EV_REL events with a code other than REL_X, REL_Y,
REL_WHEEL; ev_other for any other event type (for example EV_SYN). -/
inductive input_event where
  | key_left (value : Int)
  | key_right (value : Int)
  | key_middle (value : Int)
  | key_other (value : Int)
  | rel_x (value : Int)
  | rel_y (value : Int)
  | rel_wheel (value : Int)
  | rel_other (value : Int)
  | ev_other
deriving DecidableEq

/-- From amouse.c lines 269-311: the event dispatch of the main loop.
wheel_opt is options->wheel (truthy).  Mirrors the two switch statements:
for EV_KEY, left/right buttons latch the value, set force_update and push
an update whose full_packet argument is the current mmb latch; the middle
button is handled only when the wheel option is on and always pushes a
full packet.  For EV_REL, the matching accumulator is updated and clamped
(wheel ticks only when the wheel option is on, pushing a full packet), and
after the switch every EV_REL event pushes an update with full_packet =
mmb (amouse.c line 310), whatever its code. -/
def handle_event (wheel_opt : Bool) (m : mouse_state) (e : input_event) : mouse_state :=
  match e with
  | .key_left v => push_update { m with lmb := v, force_update := 1 } m.mmb
  | .key_right v => push_update { m with rmb := v, force_update := 1 } m.mmb
  | .key_middle v =>
      if wheel_opt then push_update { m with mmb := v, force_update := 1 } 1 else m
  | .key_other _ => m
  | .rel_x v =>
      let m1 := { m with x := clamp (m.x + v) (-127) 127 }
      push_update m1 m1.mmb
  | .rel_y v =>
      let m1 := { m with y := clamp (m.y + v) (-127) 127 }
      push_update m1 m1.mmb
  | .rel_wheel v =>
      let m1 := if wheel_opt then
          push_update { m with wheel := clamp (m.wheel + v) (-15) 15 } 1
        else m
      push_update m1 m1.mmb
  | .rel_other _ => push_update m m.mmb
  | .ev_other => m

/-- From amouse.c lines 320-333: the packet encoder run at flush time.
Straight-line transcription of the byte updates, in source order:
  state[0] |= lmb << MOUSE_LMB_BIT; state[0] |= rmb << MOUSE_RMB_BIT;
  state[3] |= mmb << MOUSE_MMB_BIT;
  movement = x AND 0xc0; state[0] |= movement >> 6; state[1] |= x AND 0x3f;
  movement = y AND 0xc0; state[0] |= movement >> 4; state[2] |= y AND 0x3f;
  state[3] |= (-wheel) AND 0x0f.
Shifting the nonnegative masked movement right by 6 or 4 is division by 64
or 16. -/
def encode_state (m : mouse_state) : mouse_state :=
  let s0a := or8 m.state0 (u8 (m.lmb * 2 ^ MOUSE_LMB_BIT))
  let s0b := or8 s0a (u8 (m.rmb * 2 ^ MOUSE_RMB_BIT))
  let s3a := or8 m.state3 (u8 (m.mmb * 2 ^ MOUSE_MMB_BIT))
  let s0c := or8 s0b (and8 (u8 m.x) 0xc0 / 64)
  let s1 := or8 m.state1 (and8 (u8 m.x) 0x3f)
  let s0d := or8 s0c (and8 (u8 m.y) 0xc0 / 16)
  let s2 := or8 m.state2 (and8 (u8 m.y) 0x3f)
  let s3b := or8 s3a (and8 (u8 (-m.wheel)) 0x0f)
  { m with state0 := s0d, state1 := s1, state2 := s2, state3 := s3b }

/-- Packet byte i of the state buffer (array indexing of mouse.state). -/
def byte_at (m : mouse_state) : Nat → Nat
  | 0 => m.state0
  | 1 => m.state1
  | 2 => m.state2
  | _ => m.state3

/-- From amouse.c lines 336-343: for(i = 0; i <= mouse.update; i++)
write(fd, state[i], 1).  The transmitted sequence is state[0..update]
inclusive, empty when update is negative. -/
def flush_bytes (m : mouse_state) : List Nat :=
  if m.update < 0 then []
  else (List.range (m.update.toNat + 1)).map (byte_at m)

/-- Result of one main-loop iteration: the mouse state after the iteration,
the bytes written to the serial port, whether the flush branch ran, and
the delay used to recompute the send deadline when it did. -/
structure iter_result where
  mouse : mouse_state
  sent : List Nat
  flushed : Bool
  next_delay : Option Int

/-- From amouse.c lines 241-354: one iteration of the main loop, as far as
the mouse state machine is concerned.  Inputs: the wheel option, the state
left by the previous iteration, the event returned by libevdev_next_event
(none when no event is available), and whether the rate-limit deadline has
passed (time_diff.tv_sec < 0 after timespec_diff(target, now)).
Transcribes: line 242 resets mouse.update to -1 at the top of EVERY
iteration; when an event was read it is dispatched, then the flush runs
iff (deadline passed AND mouse.update > -1) OR mouse.force_update is
truthy (line 317); the flush encodes the packet, writes
state[0..update], picks the next delay from the mmb latch, and resets
update, force_update, the accumulators and the packet buffer to the
template 0x40 00 00 00 (lines 346-353), leaving the button latches
alone. -/
def loop_iter (wheel_opt : Bool) (m0 : mouse_state) (ev : Option input_event)
    (deadline_passed : Bool) : iter_result :=
  let m := { m0 with update := -1 }
  match ev with
  | none => { mouse := m, sent := [], flushed := false, next_delay := none }
  | some e =>
    let mh := handle_event wheel_opt m e
    if (deadline_passed = true ∧ mh.update > -1) ∨ mh.force_update ≠ 0 then
      let menc := encode_state mh
      { mouse := { menc with
          update := -1, force_update := 0, x := 0, y := 0, wheel := 0,
          state0 := 0x40, state1 := 0, state2 := 0, state3 := 0 },
        sent := flush_bytes menc,
        flushed := true,
        next_delay := some (if mh.mmb ≠ 0 then SERIALDELAY_4B else SERIALDELAY_3B) }
    else { mouse := mh, sent := [], flushed := false, next_delay := none }

/-- Command-line options as returned by getopt for the option string
"hm:s:weid"; invalid covers the getopt default case (unknown option). -/
inductive cli_opt where
  | m (arg : String)
  | s (arg : String)
  | h
  | w
  | e
  | i
  | d
  | invalid
deriving DecidableEq

/-- From amouse.c lines 55-62: struct opts, zeroed by calloc in main. -/
structure opts_state where
  mousepath : Option String
  serialpath : Option String
  wheel : Int
  exclusive : Int
  immediate : Int
  debug : Int
deriving DecidableEq

/-- Diagnostics written by parse_opts to the error stream. -/
inductive msg where
  | invalid_opt
  | missing_mouse
  | missing_serial
deriving DecidableEq

/-- Outcome of parse_opts: the option struct, the error-stream messages,
the exit status when parse_opts terminates the process (exit is called),
and whether the usage text was printed (showhelp). -/
structure parse_result where
  exit : Option Int
  opts : opts_state
  stderr_msgs : List msg
  help_printed : Bool
deriving DecidableEq

/-- From amouse.c lines 72-108: the getopt while loop of parse_opts.  At
the top of EVERY iteration the defaults wheel = 1 and exclusive = 1 are
re-assigned (lines 78-80), then the switch runs: m and s store the
argument (strndup), h prints usage and exits 0, w and e clear their flag,
i and d set theirs, and an unknown option logs a diagnostic and
continues. -/
def parse_loop : opts_state → List msg → List cli_opt → opts_state × List msg × Option Int × Bool
  | st, msgs, [] => (st, msgs, none, false)
  | st, msgs, o :: rest =>
    let st := { st with wheel := 1, exclusive := 1 }
    match o with
    | .m a => parse_loop { st with mousepath := some a } msgs rest
    | .s a => parse_loop { st with serialpath := some a } msgs rest
    | .h => (st, msgs, some 0, true)
    | .w => parse_loop { st with wheel := 0 } msgs rest
    | .e => parse_loop { st with exclusive := 0 } msgs rest
    | .i => parse_loop { st with immediate := 1 } msgs rest
    | .d => parse_loop { st with debug := 1 } msgs rest
    | .invalid => parse_loop st (msgs ++ [msg.invalid_opt]) rest

/-- From amouse.c line 172: the opts struct is allocated with calloc, so
every field starts zeroed (paths NULL, flags 0). -/
def opts_init : opts_state :=
  { mousepath := none, serialpath := none, wheel := 0, exclusive := 0,
    immediate := 0, debug := 0 }

/-- From amouse.c lines 73-119: parse_opts on an already-tokenized option
list, starting from the calloc-zeroed struct.  After the getopt loop, a
missing mouse path or serial path each log a diagnostic to stderr and set
quit = 1; when quit is nonzero the function calls exit(0), so the process
terminates with status 0 without entering the main loop. -/
def parse_opts (args : List cli_opt) : parse_result :=
  match parse_loop opts_init [] args with
  | (st, msgs, some code, help) =>
      { exit := some code, opts := st, stderr_msgs := msgs, help_printed := help }
  | (st, msgs, none, help) =>
      let msgs1 := msgs ++ (if st.mousepath = none then [msg.missing_mouse] else [])
      let msgs2 := msgs1 ++ (if st.serialpath = none then [msg.missing_serial] else [])
      let quit : Bool := st.mousepath = none ∨ st.serialpath = none
      { exit := if quit then some 0 else none, opts := st, stderr_msgs := msgs2,
        help_printed := help }

/-- Accumulated state with the packet buffer at the template
0x40 00 00 00, as it is at every flush (the buffer is reset to the
template after each flush and only written by the encoder). -/
def enc_input (x y w l r mb : Int) : mouse_state :=
  { pc_state := 0, state0 := 0x40, state1 := 0, state2 := 0, state3 := 0,
    x := x, y := y, wheel := w, update := 2, lmb := l, rmb := r, mmb := mb,
    force_update := 0 }

/-- Concrete pre-iteration state with a 3-byte update pending
(update = 2) and no forced flush. -/
def c1_pre : mouse_state :=
  { pc_state := 0, state0 := 0x40, state1 := 0, state2 := 0, state3 := 0,
    x := 7, y := 0, wheel := 0, update := 2, lmb := 0, rmb := 0, mmb := 0,
    force_update := 0 }

/-- Every u8 value is a byte. -/
theorem u8_lt (i : Int) : u8 i < 256 := by
  unfold u8
  omega

/-- OR with zero on the left is the identity on bytes. -/
theorem or8_zero_fin : ∀ b : Fin 256, or8 0 (b : Nat) = (b : Nat) := by decide

/-- Characterization of the update field after push_update. -/
theorem push_update_update (m : mouse_state) (f : Int) :
    (push_update m f).update = if f ≠ 0 ∨ m.update = 3 then 3 else 2 := by
  unfold push_update
  split <;> rfl

/-- push_update does not touch the middle-button latch. -/
theorem push_update_mmb (m : mouse_state) (f : Int) :
    (push_update m f).mmb = m.mmb := by
  unfold push_update
  split <;> rfl

/-- Requesting an update never lowers a pending one: push_update only moves
mouse.update upward among the reachable values. -/
theorem push_update_mono (m : mouse_state) (f : Int) (h : m.update ≤ 3) :
    m.update ≤ (push_update m f).update ∧
      ((push_update m f).update = 2 ∨ (push_update m f).update = 3) := by
  rw [push_update_update]
  split_ifs <;> omega

/-- Dispatching one event never lowers mouse.update among reachable
values. -/
theorem handle_event_mono (wheel_opt : Bool) (m : mouse_state) (e : input_event)
    (h : m.update ≤ 3) :
    m.update ≤ (handle_event wheel_opt m e).update ∧
      (handle_event wheel_opt m e).update ≤ 3 := by
  cases e <;>
    simp only [handle_event] <;>
    (try split_ifs) <;>
    (try simp only [push_update_update, push_update_mmb]) <;>
    (try split_ifs) <;>
    omega

/-- Unfolding equation for a flushing iteration. -/
theorem loop_iter_pos (wheel_opt : Bool) (m : mouse_state) (e : input_event) (dp : Bool)
    (hc : (dp = true ∧ (handle_event wheel_opt { m with update := -1 } e).update > -1) ∨
      (handle_event wheel_opt { m with update := -1 } e).force_update ≠ 0) :
    loop_iter wheel_opt m (some e) dp =
      { mouse := { encode_state (handle_event wheel_opt { m with update := -1 } e) with
          update := -1, force_update := 0, x := 0, y := 0, wheel := 0,
          state0 := 0x40, state1 := 0, state2 := 0, state3 := 0 },
        sent := flush_bytes (encode_state (handle_event wheel_opt { m with update := -1 } e)),
        flushed := true,
        next_delay := some (if (handle_event wheel_opt { m with update := -1 } e).mmb ≠ 0
          then SERIALDELAY_4B else SERIALDELAY_3B) } := by
  simp only [loop_iter]
  rw [if_pos hc]

/-- Unfolding equation for a non-flushing iteration with an event. -/
theorem loop_iter_neg (wheel_opt : Bool) (m : mouse_state) (e : input_event) (dp : Bool)
    (hc : ¬((dp = true ∧ (handle_event wheel_opt { m with update := -1 } e).update > -1) ∨
      (handle_event wheel_opt { m with update := -1 } e).force_update ≠ 0)) :
    loop_iter wheel_opt m (some e) dp =
      { mouse := handle_event wheel_opt { m with update := -1 } e,
        sent := [], flushed := false, next_delay := none } := by
  simp only [loop_iter]
  rw [if_neg hc]

/-- The encoder writes the packet bytes only: the left-button latch is
untouched. -/
theorem encode_state_lmb (m : mouse_state) : (encode_state m).lmb = m.lmb := by
  dsimp only [encode_state]

/-- The encoder leaves the right-button latch untouched. -/
theorem encode_state_rmb (m : mouse_state) : (encode_state m).rmb = m.rmb := by
  dsimp only [encode_state]

/-- The encoder leaves the middle-button latch untouched. -/
theorem encode_state_mmb (m : mouse_state) : (encode_state m).mmb = m.mmb := by
  dsimp only [encode_state]

/-- Byte 0 after encoding: template OR button bits OR the top two bits of
X (shifted to bits 1-0) OR the top two bits of Y (shifted to bits 3-2). -/
theorem encode_state_state0 (m : mouse_state) :
    (encode_state m).state0 =
      or8 (or8 (or8 (or8 m.state0 (u8 (m.lmb * 2 ^ MOUSE_LMB_BIT)))
        (u8 (m.rmb * 2 ^ MOUSE_RMB_BIT))) (and8 (u8 m.x) 0xc0 / 64))
        (and8 (u8 m.y) 0xc0 / 16) := by
  dsimp only [encode_state]

/-- Byte 1 after encoding: previous byte 1 OR the low 6 bits of X. -/
theorem encode_state_state1 (m : mouse_state) :
    (encode_state m).state1 = or8 m.state1 (and8 (u8 m.x) 0x3f) := by
  dsimp only [encode_state]

/-- Byte 2 after encoding: previous byte 2 OR the low 6 bits of Y. -/
theorem encode_state_state2 (m : mouse_state) :
    (encode_state m).state2 = or8 m.state2 (and8 (u8 m.y) 0x3f) := by
  dsimp only [encode_state]

/-- Byte 3 after encoding: previous byte 3 OR the middle-button bit OR the
low 4 bits of the negated wheel accumulator. -/
theorem encode_state_state3 (m : mouse_state) :
    (encode_state m).state3 =
      or8 (or8 m.state3 (u8 (m.mmb * 2 ^ MOUSE_MMB_BIT)))
        (and8 (u8 (-m.wheel)) 0x0f) := by
  dsimp only [encode_state]

/-- C1 (amended): within a single main-loop iteration the pending length
only escalates, none (-1) to 3 bytes (2) to 4 bytes (3): push_update never
lowers a pending request, and event dispatch never lowers mouse.update;
however the loop body resets mouse.update to -1 at the top of EVERY
iteration (amouse.c line 242), flush or not, so an iteration that reads no
event leaves mouse.update = -1 without flushing. -/
theorem C1_escalation_within_iteration (wheel_opt : Bool) (m : mouse_state)
    (e : input_event) (f : Int) (dp : Bool) (h : m.update ≤ 3) :
    (m.update ≤ (push_update m f).update ∧
      ((push_update m f).update = 2 ∨ (push_update m f).update = 3)) ∧
    (m.update ≤ (handle_event wheel_opt m e).update ∧
      (handle_event wheel_opt m e).update ≤ 3) ∧
    ((loop_iter wheel_opt m none dp).mouse.update = -1 ∧
      (loop_iter wheel_opt m none dp).flushed = false) :=
  ⟨push_update_mono m f h, handle_event_mono wheel_opt m e h, rfl, rfl⟩

/-- Witness for C1 (amended) at a concrete pending state and event. -/
theorem C1_escalation_within_iteration_witness :
    c1_pre.update ≤ 3 ∧
    ((c1_pre.update ≤ (push_update c1_pre 0).update ∧
      ((push_update c1_pre 0).update = 2 ∨ (push_update c1_pre 0).update = 3)) ∧
    (c1_pre.update ≤ (handle_event true c1_pre (input_event.rel_x 1)).update ∧
      (handle_event true c1_pre (input_event.rel_x 1)).update ≤ 3) ∧
    ((loop_iter true c1_pre none false).mouse.update = -1 ∧
      (loop_iter true c1_pre none false).flushed = false)) :=
  ⟨by decide,
    C1_escalation_within_iteration true c1_pre (input_event.rel_x 1) 0 false (by decide)⟩

/-- Counterexample to C1 as stated: an iteration that starts with a 3-byte
update pending (mouse.update = 2), reads an event that is neither EV_KEY
nor EV_REL (for example EV_SYN) while the deadline has passed, does NOT
flush (nothing is sent) and still resets mouse.update to none (-1), because
amouse.c line 242 reassigns mouse.update = -1 at the top of every loop
iteration. -/
theorem C1_reset_each_iteration_cex :
    c1_pre.update = 2 ∧
    (loop_iter true c1_pre (some input_event.ev_other) true).flushed = false ∧
    (loop_iter true c1_pre (some input_event.ev_other) true).sent = [] ∧
    (loop_iter true c1_pre (some input_event.ev_other) true).mouse.update = -1 := by
  decide

/-- C4: in a main-loop iteration that processes an input event, the flush
branch runs if and only if the deadline has passed (time_diff.tv_sec < 0)
with a pending update (mouse.update > -1), or force_update is set,
regardless of the deadline (amouse.c line 317). -/
theorem C4_flush_trigger (wheel_opt : Bool) (m : mouse_state) (e : input_event)
    (dp : Bool) :
    (loop_iter wheel_opt m (some e) dp).flushed = true ↔
      ((dp = true ∧ (handle_event wheel_opt { m with update := -1 } e).update > -1) ∨
        (handle_event wheel_opt { m with update := -1 } e).force_update ≠ 0) := by
  simp only [loop_iter]
  split_ifs with hc <;> simp [hc]

/-- C5: whenever the flush branch runs, the post-iteration state has zero
accumulators, no pending update, force_update clear, the packet buffer
back at the template 0x40 00 00 00, and the three button latches exactly
as they were just before the flush (after event dispatch). -/
theorem C5_flush_reset (wheel_opt : Bool) (m : mouse_state) (e : input_event)
    (dp : Bool) (h : (loop_iter wheel_opt m (some e) dp).flushed = true) :
    (loop_iter wheel_opt m (some e) dp).mouse.x = 0 ∧
    (loop_iter wheel_opt m (some e) dp).mouse.y = 0 ∧
    (loop_iter wheel_opt m (some e) dp).mouse.wheel = 0 ∧
    (loop_iter wheel_opt m (some e) dp).mouse.update = -1 ∧
    (loop_iter wheel_opt m (some e) dp).mouse.force_update = 0 ∧
    (loop_iter wheel_opt m (some e) dp).mouse.state0 = 0x40 ∧
    (loop_iter wheel_opt m (some e) dp).mouse.state1 = 0 ∧
    (loop_iter wheel_opt m (some e) dp).mouse.state2 = 0 ∧
    (loop_iter wheel_opt m (some e) dp).mouse.state3 = 0 ∧
    (loop_iter wheel_opt m (some e) dp).mouse.lmb
      = (handle_event wheel_opt { m with update := -1 } e).lmb ∧
    (loop_iter wheel_opt m (some e) dp).mouse.rmb
      = (handle_event wheel_opt { m with update := -1 } e).rmb ∧
    (loop_iter wheel_opt m (some e) dp).mouse.mmb
      = (handle_event wheel_opt { m with update := -1 } e).mmb := by
  by_cases hc : (dp = true ∧ (handle_event wheel_opt { m with update := -1 } e).update > -1) ∨
      (handle_event wheel_opt { m with update := -1 } e).force_update ≠ 0
  · rw [loop_iter_pos wheel_opt m e dp hc]
    refine ⟨rfl, rfl, rfl, rfl, rfl, rfl, rfl, rfl, rfl, ?_, ?_, ?_⟩ <;>
      dsimp only [encode_state]
  · rw [loop_iter_neg wheel_opt m e dp hc] at h
    simp at h

/-- Witness for C5 at a concrete flushing iteration (left button down
forces the flush). -/
theorem C5_flush_reset_witness :
    (loop_iter true c1_pre (some (input_event.key_left 1)) false).flushed = true ∧
    ((loop_iter true c1_pre (some (input_event.key_left 1)) false).mouse.x = 0 ∧
    (loop_iter true c1_pre (some (input_event.key_left 1)) false).mouse.y = 0 ∧
    (loop_iter true c1_pre (some (input_event.key_left 1)) false).mouse.wheel = 0 ∧
    (loop_iter true c1_pre (some (input_event.key_left 1)) false).mouse.update = -1 ∧
    (loop_iter true c1_pre (some (input_event.key_left 1)) false).mouse.force_update = 0 ∧
    (loop_iter true c1_pre (some (input_event.key_left 1)) false).mouse.state0 = 0x40 ∧
    (loop_iter true c1_pre (some (input_event.key_left 1)) false).mouse.state1 = 0 ∧
    (loop_iter true c1_pre (some (input_event.key_left 1)) false).mouse.state2 = 0 ∧
    (loop_iter true c1_pre (some (input_event.key_left 1)) false).mouse.state3 = 0 ∧
    (loop_iter true c1_pre (some (input_event.key_left 1)) false).mouse.lmb
      = (handle_event true { c1_pre with update := -1 } (input_event.key_left 1)).lmb ∧
    (loop_iter true c1_pre (some (input_event.key_left 1)) false).mouse.rmb
      = (handle_event true { c1_pre with update := -1 } (input_event.key_left 1)).rmb ∧
    (loop_iter true c1_pre (some (input_event.key_left 1)) false).mouse.mmb
      = (handle_event true { c1_pre with update := -1 } (input_event.key_left 1)).mmb) :=
  ⟨by decide, C5_flush_reset true c1_pre (input_event.key_left 1) false (by decide)⟩

/-- C6: the identification routine transmits THREE bytes 0x4D 0x5A 0x00
when the wheel option is enabled, because sizeof of the string-literal
array pkt_intellimouse_intro counts its NUL terminator; with the wheel
option off it transmits the single byte 0x4D as the claim states. -/
theorem C6_ident_payload :
    mouse_ident_bytes true = [0x4D, 0x5A, 0x00] ∧ mouse_ident_bytes false = [0x4D] :=
  ⟨rfl, rfl⟩

/-- Counterexample to C7 as stated: with the control-line register holding
only bit 0x020 (CTS) and the mask 0x120 (CTS together with DSR), not all
mask bits are set in the register, yet get_pin returns 1. -/
theorem C7_all_bits_cex :
    get_pin (some 32) 288 = 1 ∧ and32 32 288 ≠ 288 ∧ and32 32 288 = 32 := by
  decide

/-- C7 (amended): get_pin returns 1 exactly when at least one bit of the
mask is set in the register (the C test is (state AND flag) ? 1 : 0), 0
exactly when none is, and the error sentinel -1 when the underlying
TIOCMGET query fails. -/
theorem C7_any_bit_semantics (s flag : Nat) :
    (get_pin (some s) flag = 1 ↔ and32 s flag ≠ 0) ∧
    (get_pin (some s) flag = 0 ↔ and32 s flag = 0) ∧
    get_pin none flag = -1 := by
  simp only [get_pin]
  split_ifs with hc
  · simp [hc]
  · simp only [ne_eq, not_not] at hc
    simp [hc]

/-- C9: for normalized timestamps (nanosecond fields in [0, 10^9)),
timespec_diff returns a result whose nanosecond component is nonnegative
(and normalized), borrowing one second when the raw remainder is negative,
and the result represents the exact signed difference of the two
instants. -/
theorem C9_timespec_diff_exact (ts1 ts2 : timespec)
    (h1a : 0 ≤ ts1.tv_nsec) (h1b : ts1.tv_nsec < NS_FULL_SECOND)
    (h2a : 0 ≤ ts2.tv_nsec) (h2b : ts2.tv_nsec < NS_FULL_SECOND) :
    0 ≤ (timespec_diff ts1 ts2).tv_nsec ∧
    (timespec_diff ts1 ts2).tv_nsec < NS_FULL_SECOND ∧
    (timespec_diff ts1 ts2).tv_sec * NS_FULL_SECOND + (timespec_diff ts1 ts2).tv_nsec
      = (ts1.tv_sec * NS_FULL_SECOND + ts1.tv_nsec)
        - (ts2.tv_sec * NS_FULL_SECOND + ts2.tv_nsec) := by
  simp only [timespec_diff, NS_FULL_SECOND] at *
  split_ifs with hneg <;> dsimp only <;> omega

/-- Per-byte facts about the X path of the encoder: an OR with the zeroed
template byte is the identity on the masked value, and the top-bits field
fits in two bits. -/
theorem fin_byte_x : ∀ a : Fin 256,
    or8 0 (and8 (a : Nat) 0x3f) = and8 (a : Nat) 0x3f ∧
      and8 (a : Nat) 0xc0 / 64 < 4 := by
  decide

/-- Nat form of fin_byte_x. -/
theorem byte_x (a : Nat) (ha : a < 256) :
    or8 0 (and8 a 0x3f) = and8 a 0x3f ∧ and8 a 0xc0 / 64 < 4 :=
  fin_byte_x ⟨a, ha⟩

/-- The Y top-bits field of byte 0 is a multiple of 4 below 16. -/
theorem fin_byte_y : ∀ a : Fin 256,
    ∃ s : Fin 4, and8 (a : Nat) 0xc0 / 16 = 4 * (s : Nat) := by
  decide

/-- Nat form of fin_byte_y. -/
theorem byte_y (a : Nat) (ha : a < 256) :
    ∃ s : Fin 4, and8 a 0xc0 / 16 = 4 * (s : Nat) :=
  fin_byte_y ⟨a, ha⟩

/-- Low nibble of byte 3 with the middle button clear: the wheel nibble
passes through. -/
theorem fin_nib0 : ∀ b : Fin 256,
    and8 (or8 (or8 0 (u8 (0 * 2 ^ MOUSE_MMB_BIT))) (and8 (b : Nat) 0x0f)) 0x0f
      = and8 (b : Nat) 0x0f := by
  decide

/-- Low nibble of byte 3 with the middle button set: the middle-button bit
sits above the nibble, so the wheel nibble still passes through. -/
theorem fin_nib16 : ∀ b : Fin 256,
    and8 (or8 (or8 0 (u8 (1 * 2 ^ MOUSE_MMB_BIT))) (and8 (b : Nat) 0x0f)) 0x0f
      = and8 (b : Nat) 0x0f := by
  decide

/-- C2: at a template packet buffer, the encoder writes the low 6 bits of
the 8-bit X value into byte 1 and of Y into byte 2, and byte 0 is 0x40
OR the button bits OR the top two bits of X at bits 1-0 OR the top two
bits of Y at bits 3-2; extracting bits 1-0 and 3-2 of byte 0 recovers
those top-bit fields. -/
theorem C2_packet_bytes (x y w l r mb : Int)
    (hx1 : -127 ≤ x) (hx2 : x ≤ 127) (hy1 : -127 ≤ y) (hy2 : y ≤ 127)
    (hl : l = 0 ∨ l = 1) (hr : r = 0 ∨ r = 1) :
    (encode_state (enc_input x y w l r mb)).state1 = and8 (u8 x) 0x3f ∧
    (encode_state (enc_input x y w l r mb)).state2 = and8 (u8 y) 0x3f ∧
    (encode_state (enc_input x y w l r mb)).state0 =
      or8 (or8 (or8 (or8 0x40 (u8 (l * 2 ^ MOUSE_LMB_BIT)))
        (u8 (r * 2 ^ MOUSE_RMB_BIT))) (and8 (u8 x) 0xc0 / 64))
        (and8 (u8 y) 0xc0 / 16) ∧
    and8 (encode_state (enc_input x y w l r mb)).state0 0x03
      = and8 (u8 x) 0xc0 / 64 ∧
    and8 (encode_state (enc_input x y w l r mb)).state0 0x0c
      = and8 (u8 y) 0xc0 / 16 := by
  refine ⟨?_, ?_, ?_, ?_, ?_⟩
  · rw [encode_state_state1]
    dsimp only [enc_input]
    exact (byte_x (u8 x) (u8_lt x)).1
  · rw [encode_state_state2]
    dsimp only [enc_input]
    exact (byte_x (u8 y) (u8_lt y)).1
  · rw [encode_state_state0]
    dsimp only [enc_input]
  · rw [encode_state_state0]
    dsimp only [enc_input]
    obtain ⟨t, ht⟩ : ∃ t : Fin 4, and8 (u8 x) 0xc0 / 64 = (t : Nat) :=
      ⟨⟨and8 (u8 x) 0xc0 / 64, (byte_x (u8 x) (u8_lt x)).2⟩, rfl⟩
    obtain ⟨s, hs⟩ := byte_y (u8 y) (u8_lt y)
    rw [ht, hs]
    clear ht hs hx1 hx2 hy1 hy2
    rcases hl with rfl | rfl <;> rcases hr with rfl | rfl <;> revert t s <;> decide
  · rw [encode_state_state0]
    dsimp only [enc_input]
    obtain ⟨t, ht⟩ : ∃ t : Fin 4, and8 (u8 x) 0xc0 / 64 = (t : Nat) :=
      ⟨⟨and8 (u8 x) 0xc0 / 64, (byte_x (u8 x) (u8_lt x)).2⟩, rfl⟩
    obtain ⟨s, hs⟩ := byte_y (u8 y) (u8_lt y)
    rw [ht, hs]
    clear ht hs hx1 hx2 hy1 hy2
    rcases hl with rfl | rfl <;> rcases hr with rfl | rfl <;> revert t s <;> decide

/-- Witness for C2 at the example of the claim: x = 5, y = -3, left button
down, right button up. -/
theorem C2_packet_bytes_witness :
    (encode_state (enc_input 5 (-3) 0 1 0 0)).state1 = and8 (u8 5) 0x3f ∧
    (encode_state (enc_input 5 (-3) 0 1 0 0)).state2 = and8 (u8 (-3)) 0x3f ∧
    (encode_state (enc_input 5 (-3) 0 1 0 0)).state0 =
      or8 (or8 (or8 (or8 0x40 (u8 (1 * 2 ^ MOUSE_LMB_BIT)))
        (u8 (0 * 2 ^ MOUSE_RMB_BIT))) (and8 (u8 5) 0xc0 / 64))
        (and8 (u8 (-3)) 0xc0 / 16) ∧
    and8 (encode_state (enc_input 5 (-3) 0 1 0 0)).state0 0x03
      = and8 (u8 5) 0xc0 / 64 ∧
    and8 (encode_state (enc_input 5 (-3) 0 1 0 0)).state0 0x0c
      = and8 (u8 (-3)) 0xc0 / 16 :=
  C2_packet_bytes 5 (-3) 0 1 0 0 (by decide) (by decide) (by decide) (by decide)
    (by decide) (by decide)

/-- C3: at a template packet buffer, the low 4 bits of encoded byte 3 are
(-wheel) AND 0x0f for every clamped wheel value and boolean middle-button
latch; in particular wheel = 3 encodes nibble 13 and wheel = -3 encodes
nibble 3. -/
theorem C3_wheel_nibble (x y w l r mb : Int) (hw1 : -15 ≤ w) (hw2 : w ≤ 15)
    (hmb : mb = 0 ∨ mb = 1) :
    and8 (encode_state (enc_input x y w l r mb)).state3 0x0f = and8 (u8 (-w)) 0x0f ∧
    and8 (encode_state (enc_input 0 0 3 0 0 0)).state3 0x0f = 13 ∧
    and8 (encode_state (enc_input 0 0 (-3) 0 0 0)).state3 0x0f = 3 := by
  refine ⟨?_, by decide, by decide⟩
  rw [encode_state_state3]
  dsimp only [enc_input]
  rcases hmb with rfl | rfl
  · exact fin_nib0 ⟨u8 (-w), u8_lt (-w)⟩
  · exact fin_nib16 ⟨u8 (-w), u8_lt (-w)⟩

/-- Witness for C3 at wheel = 5 with the middle button held. -/
theorem C3_wheel_nibble_witness :
    and8 (encode_state (enc_input 0 0 5 0 0 1)).state3 0x0f = and8 (u8 (-5)) 0x0f ∧
    and8 (encode_state (enc_input 0 0 3 0 0 0)).state3 0x0f = 13 ∧
    and8 (encode_state (enc_input 0 0 (-3) 0 0 0)).state3 0x0f = 3 :=
  C3_wheel_nibble 0 0 5 0 0 1 (by decide) (by decide) (by decide)

/-- Witness for C9 at concrete timestamps that exercise the borrow. -/
theorem C9_timespec_diff_exact_witness :
    0 ≤ (timespec_diff ⟨5, 100⟩ ⟨7, 300⟩).tv_nsec ∧
    (timespec_diff ⟨5, 100⟩ ⟨7, 300⟩).tv_nsec < NS_FULL_SECOND ∧
    (timespec_diff ⟨5, 100⟩ ⟨7, 300⟩).tv_sec * NS_FULL_SECOND
        + (timespec_diff ⟨5, 100⟩ ⟨7, 300⟩).tv_nsec
      = (5 * NS_FULL_SECOND + 100) - (7 * NS_FULL_SECOND + 300) :=
  C9_timespec_diff_exact ⟨5, 100⟩ ⟨7, 300⟩ (by decide) (by decide) (by decide) (by decide)

/-- Without the help option, the getopt loop never calls exit and never
prints the usage text. -/
theorem parse_loop_no_exit (args : List cli_opt) :
    ∀ (st : opts_state) (msgs : List msg), cli_opt.h ∉ args →
      (parse_loop st msgs args).2.2.1 = none ∧ (parse_loop st msgs args).2.2.2 = false := by
  induction args with
  | nil => exact fun st msgs _ => ⟨rfl, rfl⟩
  | cons o rest ih =>
    intro st msgs hnh
    simp only [List.mem_cons, not_or] at hnh
    obtain ⟨ho, hrest⟩ := hnh
    cases o <;> simp only [parse_loop] <;>
      first
        | exact ih _ _ hrest
        | exact absurd rfl ho

/-- Both match arms of parse_opts return the option struct computed by the
getopt loop unchanged. -/
theorem parse_opts_opts (args : List cli_opt) :
    (parse_opts args).opts = (parse_loop opts_init [] args).1 := by
  unfold parse_opts
  rcases hp : parse_loop opts_init [] args with ⟨st, msgs, ex, help⟩
  cases ex <;> rfl

/-- Last processed option decides the wheel and exclusive flags, because
the loop re-assigns the defaults at the top of every iteration. -/
theorem parse_loop_flags (args : List cli_opt) :
    ∀ (st : opts_state) (msgs : List msg), args ≠ [] → cli_opt.h ∉ args →
      ((parse_loop st msgs args).1.wheel = 0 ↔ args.getLast? = some cli_opt.w) ∧
      ((parse_loop st msgs args).1.exclusive = 0 ↔ args.getLast? = some cli_opt.e) := by
  induction args with
  | nil => exact fun st msgs hne _ => absurd rfl hne
  | cons o rest ih =>
    intro st msgs _ hnh
    simp only [List.mem_cons, not_or] at hnh
    obtain ⟨ho, hrest⟩ := hnh
    rcases rest with _ | ⟨r, rs⟩
    · cases o <;>
        first
          | exact absurd rfl ho
          | simp [parse_loop, List.getLast?]
    · cases o <;>
        first
          | exact absurd rfl ho
          | (rw [List.getLast?_cons_cons]
             exact ih _ _ (by simp) hrest)

/-- C10: re-assigning the defaults at the top of every getopt iteration
(amouse.c lines 78-80) makes the disable flags last-option-wins: after a
parse that completes (no help option, at least one option), wheel is
disabled iff -w was the final option, and exclusive access is disabled iff
-e was the final option; any option following them overwrites the flag
back to enabled. -/
theorem C10_last_option_wins (args : List cli_opt) (hne : args ≠ [])
    (hnh : cli_opt.h ∉ args) :
    ((parse_opts args).opts.wheel = 0 ↔ args.getLast? = some cli_opt.w) ∧
    ((parse_opts args).opts.exclusive = 0 ↔ args.getLast? = some cli_opt.e) := by
  rw [parse_opts_opts args]
  exact parse_loop_flags args opts_init [] hne hnh

/-- Witness for C10: with -w followed by -e, the wheel flag has been
overwritten back to enabled and only the final -e takes effect. -/
theorem C10_last_option_wins_witness :
    ((parse_opts [cli_opt.w, cli_opt.e]).opts.wheel = 0
      ↔ [cli_opt.w, cli_opt.e].getLast? = some cli_opt.w) ∧
    ((parse_opts [cli_opt.w, cli_opt.e]).opts.exclusive = 0
      ↔ [cli_opt.w, cli_opt.e].getLast? = some cli_opt.e) :=
  C10_last_option_wins [cli_opt.w, cli_opt.e] (by decide) (by decide)

/-- Counterexample to C8 as stated: invoked with only -s (mouse path
missing), the program prints per-path diagnostics, NOT the usage text, and
exits with status 0 - a success status, not a non-zero failure status. -/
theorem C8_exit_zero_cex :
    (parse_opts [cli_opt.s "x"]).exit = some 0 ∧
    (parse_opts [cli_opt.s "x"]).help_printed = false ∧
    (parse_opts [cli_opt.s "x"]).opts.mousepath = none ∧
    msg.missing_mouse ∈ (parse_opts [cli_opt.s "x"]).stderr_msgs := by
  decide

/-- C8 (amended): when a required path is missing after a parse without the
help option, the process exits before the main loop, but with status 0
(exit(0) at amouse.c line 118), printing a per-path diagnostic to the
error stream rather than the usage text. -/
theorem C8_missing_path_exit (args : List cli_opt) (hnh : cli_opt.h ∉ args)
    (hmiss : (parse_opts args).opts.mousepath = none ∨
      (parse_opts args).opts.serialpath = none) :
    (parse_opts args).exit = some 0 ∧
    (parse_opts args).help_printed = false ∧
    ((parse_opts args).opts.mousepath = none →
      msg.missing_mouse ∈ (parse_opts args).stderr_msgs) ∧
    ((parse_opts args).opts.serialpath = none →
      msg.missing_serial ∈ (parse_opts args).stderr_msgs) := by
  obtain ⟨hex, hhelp⟩ := parse_loop_no_exit args opts_init [] hnh
  unfold parse_opts at hmiss ⊢
  rcases hp : parse_loop opts_init [] args with ⟨st, msgs, ex, help⟩
  rw [hp] at hex hhelp hmiss
  dsimp only at hex hhelp hmiss ⊢
  subst hex
  subst hhelp
  dsimp only at hmiss ⊢
  refine ⟨?_, rfl, fun hm2 => ?_, fun hs2 => ?_⟩
  · rcases hmiss with hm | hm <;> simp [hm]
  · simp [hm2, List.mem_append]
  · simp [hs2, List.mem_append]

/-- Witness for C8 (amended): only -s given, so the mouse path is
missing. -/
theorem C8_missing_path_exit_witness :
    (parse_opts [cli_opt.s "x"]).exit = some 0 ∧
    (parse_opts [cli_opt.s "x"]).help_printed = false ∧
    ((parse_opts [cli_opt.s "x"]).opts.mousepath = none →
      msg.missing_mouse ∈ (parse_opts [cli_opt.s "x"]).stderr_msgs) ∧
    ((parse_opts [cli_opt.s "x"]).opts.serialpath = none →
      msg.missing_serial ∈ (parse_opts [cli_opt.s "x"]).stderr_msgs) :=
  C8_missing_path_exit [cli_opt.s "x"] (by decide) (Or.inl (by decide))

end Amouse
